import Mathlib

/-
  Formal model of the Energy-Audit-App metrics calculator and recommendation
  engine.  Numbers are embedded as exact rationals (ℚ); Python's `round(x, n)`
  (round-half-to-even on the value scaled by 10^n) is modelled by `roundTo`.

  Two variants of the calculator/engine coexist in the repository:
    * `Utils`  — src/utils.py   (factor 2.32, mass-flow-weighted flue-gas loss,
                 display rounding inside the calculator, engine returns a
                 newline-joined string);
    * `Batch`  — src/Batch_Analysis.py (same code re-appears in
                 src/Manual_Audit.py): factor 2.29, linear flue-gas proxy,
                 no rounding, engine returns a list of formatted messages and
                 guards the good band by `> 0`.
-/

namespace EnergyAudit

/-- Round a rational to the nearest integer, ties to the even integer
(Python's built-in rounding mode). -/
def roundHalfEven (x : ℚ) : ℤ :=
  let f : ℤ := ⌊x⌋
  let r : ℚ := x - f
  if r < 1/2 then f
  else if 1/2 < r then f + 1
  else if Even f then f else f + 1

/-- `roundTo n x` models Python `round(x, n)`: round at the `n`-th decimal. -/
def roundTo (n : ℕ) (x : ℚ) : ℚ :=
  (roundHalfEven (10 ^ n * x) : ℚ) / 10 ^ n

/-- An integer rational rounds to itself. -/
theorem roundHalfEven_intCast (z : ℤ) : roundHalfEven (z : ℚ) = z := by
  simp [roundHalfEven]

/-- A rational with denominator 1 rounds to its numerator. -/
theorem roundHalfEven_of_den_eq_one (q : ℚ) (h : q.den = 1) :
    roundHalfEven q = q.num := by
  have hz : ((q.num : ℚ)) = q := (Rat.den_eq_one_iff _).mp h
  conv_lhs => rw [← hz]
  exact roundHalfEven_intCast _

theorem roundTo_of_den_eq_one (n : ℕ) (x : ℚ) (h : ((10 ^ n : ℚ) * x).den = 1) :
    roundTo n x = x := by
  have hz : ((((10 ^ n : ℚ) * x).num : ℤ) : ℚ) = (10 ^ n : ℚ) * x :=
    (Rat.den_eq_one_iff _).mp h
  rw [roundTo, roundHalfEven_of_den_eq_one _ h, hz]
  have hp : (10 ^ n : ℚ) ≠ 0 := by positivity
  field_simp

theorem roundTo_zero (n : ℕ) : roundTo n 0 = 0 := by
  have : ((10 : ℚ) ^ n * 0).den = 1 := by simp
  simpa using roundTo_of_den_eq_one n 0 this

namespace Utils

/-- The metrics dictionary produced by `utils.calculate_metrics` and consumed
by `utils.generate_recommendations`; a `none` field models an absent key
(the engine reads every key through `metrics.get(key, 0)`). -/
structure MetricsDict where
  boiler_efficiency : Option ℚ
  heat_rate : Option ℚ
  specific_fuel_consumption : Option ℚ
  flue_gas_loss : Option ℚ
  co2_emissions : Option ℚ
  deriving DecidableEq, Repr

/-- src/utils.py line 25: `heat_input = coal_flow * gcv`. -/
def heat_input (coal_flow gcv : ℚ) : ℚ := coal_flow * gcv

/-- src/utils.py line 26: `steam_energy = steam_flow * (h_steam - h_feed)`. -/
def steam_energy (steam_flow h_steam h_feed : ℚ) : ℚ :=
  steam_flow * (h_steam - h_feed)

/-- src/utils.py line 28 (value before display rounding):
`boiler_efficiency = (steam_energy / heat_input) * 100 if heat_input else 0`. -/
def boiler_efficiency_raw (coal_flow gcv steam_flow h_steam h_feed : ℚ) : ℚ :=
  if heat_input coal_flow gcv ≠ 0 then
    steam_energy steam_flow h_steam h_feed / heat_input coal_flow gcv * 100
  else 0

/-- src/utils.py line 29: `heat_rate = heat_input / power_output if power_output else 0`. -/
def heat_rate_raw (coal_flow gcv power_output : ℚ) : ℚ :=
  if power_output ≠ 0 then heat_input coal_flow gcv / power_output else 0

/-- src/utils.py line 30: `sfc = coal_flow / power_output if power_output else 0`. -/
def sfc_raw (coal_flow power_output : ℚ) : ℚ :=
  if power_output ≠ 0 then coal_flow / power_output else 0

/-- src/utils.py lines 33–35: flue-gas loss with `cp_flue_gas = 0.24` and
`flue_gas_flow = 1.5 * coal_flow`, guarded by `if heat_input`. -/
def flue_gas_loss_raw (coal_flow gcv flue_temp ambient_temp : ℚ) : ℚ :=
  if heat_input coal_flow gcv ≠ 0 then
    (flue_temp - ambient_temp) * (0.24 : ℚ) * ((1.5 : ℚ) * coal_flow) /
      heat_input coal_flow gcv * 100
  else 0

/-- src/utils.py line 38: `co2_emissions = coal_flow * 2.32`. -/
def co2_emissions_raw (coal_flow : ℚ) : ℚ := coal_flow * (2.32 : ℚ)

/-- src/utils.py `calculate_metrics`: the returned dictionary, every value
rounded for display (2 decimals, 4 for specific fuel consumption). -/
def calculate_metrics (coal_flow gcv steam_flow h_steam h_feed
    power_output flue_temp ambient_temp : ℚ) : MetricsDict where
  boiler_efficiency :=
    some (roundTo 2 (boiler_efficiency_raw coal_flow gcv steam_flow h_steam h_feed))
  heat_rate := some (roundTo 2 (heat_rate_raw coal_flow gcv power_output))
  specific_fuel_consumption := some (roundTo 4 (sfc_raw coal_flow power_output))
  flue_gas_loss :=
    some (roundTo 2 (flue_gas_loss_raw coal_flow gcv flue_temp ambient_temp))
  co2_emissions := some (roundTo 2 (co2_emissions_raw coal_flow))

/-- src/utils.py `generate_recommendations`: the `rec` list built by the five
indicator blocks, in source order. -/
def recommendation_list (metrics : MetricsDict) : List String :=
  let rec0 : List String := []
  let be := metrics.boiler_efficiency.getD 0
  let rec1 :=
    if be > 85 then rec0 ++ ["✅ Excellent boiler efficiency."]
    else if be ≥ 70 then rec0 ++ ["⚠️ Moderate efficiency. Optimize air/fuel ratio."]
    else rec0 ++ ["❌ Low efficiency. Improve combustion or insulation."]
  let hr := metrics.heat_rate.getD 0
  let rec2 :=
    if hr > 3000 then rec1 ++ ["❌ High heat rate. Check turbines & steam conditions."]
    else if hr > 2500 then rec1 ++ ["⚠️ Slightly high heat rate. Review operations."]
    else rec1 ++ ["✅ Efficient heat rate."]
  let sfc := metrics.specific_fuel_consumption.getD 0
  let rec3 :=
    if sfc > 0.75 then rec2 ++ ["❌ High fuel usage. Check fuel quality."]
    else if sfc > 0.6 then rec2 ++ ["⚠️ Improve combustion."]
    else rec2 ++ ["✅ Efficient fuel use."]
  let fl := metrics.flue_gas_loss.getD 0
  let rec4 :=
    if fl > 10 then rec3 ++ ["❌ High flue gas loss. Add economizers."]
    else if fl > 5 then rec3 ++ ["⚠️ Consider better insulation."]
    else rec3 ++ ["✅ Heat recovery is good."]
  let co2 := metrics.co2_emissions.getD 0
  let rec5 :=
    if co2 > 8000 then
      rec4 ++ ["⚠️ High CO₂ emissions. Explore cleaner fuels or carbon capture."]
    else rec4
  rec5

/-- src/utils.py line 88: the engine returns `"\n\n".join(rec)`. -/
def generate_recommendations (metrics : MetricsDict) : String :=
  String.intercalate "\n\n" (recommendation_list metrics)

theorem ite_append3 {c d : Prop} [Decidable c] [Decidable d] (l a b e : List String) :
    (if c then l ++ a else if d then l ++ b else l ++ e) =
      l ++ (if c then a else if d then b else e) := by
  split_ifs <;> rfl

theorem ite_append1 {c : Prop} [Decidable c] (l a : List String) :
    (if c then l ++ a else l) = l ++ (if c then a else []) := by
  split_ifs <;> simp

/-- Closed form of `recommendation_list`: one message per indicator in source
order, the CO₂ warning appended only above 8000. -/
theorem recommendation_list_eq (m : MetricsDict) :
    recommendation_list m =
      [if m.boiler_efficiency.getD 0 > 85 then "✅ Excellent boiler efficiency."
       else if m.boiler_efficiency.getD 0 ≥ 70 then
         "⚠️ Moderate efficiency. Optimize air/fuel ratio."
       else "❌ Low efficiency. Improve combustion or insulation.",
       if m.heat_rate.getD 0 > 3000 then
         "❌ High heat rate. Check turbines & steam conditions."
       else if m.heat_rate.getD 0 > 2500 then
         "⚠️ Slightly high heat rate. Review operations."
       else "✅ Efficient heat rate.",
       if m.specific_fuel_consumption.getD 0 > 0.75 then
         "❌ High fuel usage. Check fuel quality."
       else if m.specific_fuel_consumption.getD 0 > 0.6 then "⚠️ Improve combustion."
       else "✅ Efficient fuel use.",
       if m.flue_gas_loss.getD 0 > 10 then "❌ High flue gas loss. Add economizers."
       else if m.flue_gas_loss.getD 0 > 5 then "⚠️ Consider better insulation."
       else "✅ Heat recovery is good."] ++
      (if m.co2_emissions.getD 0 > 8000 then
         ["⚠️ High CO₂ emissions. Explore cleaner fuels or carbon capture."]
       else []) := by
  simp only [recommendation_list, ite_append3, ite_append1, List.nil_append,
    List.append_assoc, List.singleton_append, List.cons_append]
  split_ifs <;> rfl

theorem recommendation_list_length (m : MetricsDict) :
    (recommendation_list m).length =
      if m.co2_emissions.getD 0 > 8000 then 5 else 4 := by
  rw [recommendation_list_eq]
  split_ifs <;> simp

end Utils

/-- Python `'{:.2f}'.format x`: fixed-point rendering with two decimals
(round-half-even), as interpolated into the Batch_Analysis messages. -/
def fmt2 (x : ℚ) : String :=
  let n : ℤ := roundHalfEven (100 * x)
  let sign := if n < 0 then "-" else ""
  let m : ℕ := n.natAbs
  sign ++ toString (m / 100) ++ "." ++
    (if m % 100 < 10 then "0" else "") ++ toString (m % 100)

namespace Batch

/-- The metrics dictionary of src/Batch_Analysis.py `calculate_metrics`
(re-appearing verbatim in src/Manual_Audit.py); `none` models an absent key,
read back through `metrics.get(key, 0)` by its `generate_recommendations`. -/
structure MetricsDict where
  boiler_efficiency : Option ℚ
  plant_heat_rate : Option ℚ
  specific_fuel_consumption : Option ℚ
  flue_gas_loss : Option ℚ
  co2_emissions : Option ℚ
  deriving DecidableEq, Repr

/-- src/Batch_Analysis.py `calculate_metrics` (lines 12–67): every input is
first coerced — a missing (`None`/`NaN`) value becomes `0` (lines 30–37) —
then the formulas of lines 41–59 are applied: emission factor 2.29 and the
linear flue-gas proxy `(flue_temp - amb_temp) * 0.25`, without rounding. -/
def calculate_metrics (coal_flow gcv steam_flow steam_h feed_h
    power_output flue_temp amb_temp : Option ℚ) : MetricsDict :=
  let coal_flow := coal_flow.getD 0
  let gcv := gcv.getD 0
  let steam_flow := steam_flow.getD 0
  let steam_h := steam_h.getD 0
  let feed_h := feed_h.getD 0
  let power_output := power_output.getD 0
  let flue_temp := flue_temp.getD 0
  let amb_temp := amb_temp.getD 0
  let energy_input := coal_flow * gcv
  let steam_energy := steam_flow * (steam_h - feed_h)
  let efficiency := if energy_input ≠ 0 then steam_energy / energy_input * 100 else 0
  let plant_heat_rate := if power_output ≠ 0 then energy_input / power_output else 0
  let specific_fuel_consumption := if power_output ≠ 0 then coal_flow / power_output else 0
  let co2_emissions := coal_flow * (2.29 : ℚ)
  let flue_loss := (flue_temp - amb_temp) * (0.25 : ℚ)
  { boiler_efficiency := some efficiency
    plant_heat_rate := some plant_heat_rate
    specific_fuel_consumption := some specific_fuel_consumption
    flue_gas_loss := some flue_loss
    co2_emissions := some co2_emissions }

/-- src/Batch_Analysis.py `generate_recommendations` (lines 70–125): the
good band of heat rate, specific fuel consumption and flue-gas loss is
guarded by `> 0` ("avoid recommending Efficient for 0 values"), and CO₂
gets an informational message whenever it is positive. -/
def generate_recommendations (metrics : MetricsDict) : List String :=
  let rec0 : List String := []
  let be := metrics.boiler_efficiency.getD 0
  let rec1 :=
    if be > 85 then
      rec0 ++ ["✅ **Boiler Efficiency (Avg: " ++ fmt2 be ++
        "%)**: Excellent. Maintain current operation and schedule routine maintenance."]
    else if 70 ≤ be ∧ be ≤ 85 then
      rec0 ++ ["⚠️ **Boiler Efficiency (Avg: " ++ fmt2 be ++
        "%)**: Good, but room for improvement. Optimize excess air supply, clean heat transfer surfaces (e.g., soot blowing)."]
    else
      rec0 ++ ["❌ **Boiler Efficiency (Avg: " ++ fmt2 be ++
        "%)**: Inefficient. Check for incomplete combustion, poor coal quality, leaks, and fouling in boiler tubes. Consider retrofitting economizers or better insulation."]
  let hr := metrics.plant_heat_rate.getD 0
  let rec2 :=
    if hr < 2500 ∧ hr > 0 then
      rec1 ++ ["✅ **Plant Heat Rate (Avg: " ++ fmt2 hr ++
        " kcal/kWh)**: Efficient. Maintain load management and keep equipment in tuned condition."]
    else if 2500 ≤ hr ∧ hr ≤ 3000 then
      rec1 ++ ["⚠️ **Plant Heat Rate (Avg: " ++ fmt2 hr ++
        " kcal/kWh)**: Average. Inspect turbine sealing, condenser vacuum, and reheater losses."]
    else
      rec1 ++ ["❌ **Plant Heat Rate (Avg: " ++ fmt2 hr ++
        " kcal/kWh)**: Inefficient. Audit heat exchangers, check turbine performance, condenser vacuum issues, and unaccounted auxiliary consumption."]
  let sfc := metrics.specific_fuel_consumption.getD 0
  let rec3 :=
    if sfc < 0.6 ∧ sfc > 0 then
      rec2 ++ ["✅ **Specific Fuel Consumption (Avg: " ++ fmt2 sfc ++
        " kg/kWh)**: Efficient. Ensure consistent coal quality and maintain feed systems."]
    else if 0.6 ≤ sfc ∧ sfc ≤ 0.75 then
      rec2 ++ ["⚠️ **Specific Fuel Consumption (Avg: " ++ fmt2 sfc ++
        " kg/kWh)**: Acceptable. Verify air-fuel ratio, minimize unburnt carbon."]
    else
      rec2 ++ ["❌ **Specific Fuel Consumption (Avg: " ++ fmt2 sfc ++
        " kg/kWh)**: High. Recommend coal quality improvement, combustion tuning, and reducing clinker formation."]
  let fl := metrics.flue_gas_loss.getD 0
  let rec4 :=
    if fl < 5 ∧ fl > 0 then
      rec3 ++ ["✅ **Flue Gas Loss (Avg: " ++ fmt2 fl ++
        "%)**: Optimal flue gas recovery. Keep stack temperature and air ratio monitored."]
    else if 5 ≤ fl ∧ fl ≤ 10 then
      rec3 ++ ["⚠️ **Flue Gas Loss (Avg: " ++ fmt2 fl ++
        "%)**: Moderate loss. Consider preheating combustion air or recovering heat using economizer."]
    else
      rec3 ++ ["❌ **Flue Gas Loss (Avg: " ++ fmt2 fl ++
        "%)**: High heat loss. Suggest urgent flue gas heat recovery installation, reduce excess air, and check for insulation leaks."]
  let co2 := metrics.co2_emissions.getD 0
  let rec5 :=
    if co2 > 8000 then
      rec4 ++ ["⚠️ **CO₂ Emissions (Avg: " ++ fmt2 co2 ++
        " kg/hr)**: High CO₂ emissions. Explore cleaner fuels or carbon capture technologies."]
    else if co2 > 0 then
      rec4 ++ ["✅ **CO₂ Emissions (Avg: " ++ fmt2 co2 ++
        " kg/hr)**: Monitor CO₂ emissions regularly and explore opportunities for reduction."]
    else rec4
  rec5

/-- src/Batch_Analysis.py lines 196–211: the aggregate metrics record,
column-wise arithmetic mean of the per-row metrics. -/
def avg_metrics (l : List MetricsDict) : MetricsDict where
  boiler_efficiency :=
    some ((l.map (fun m => m.boiler_efficiency.getD 0)).sum / l.length)
  plant_heat_rate :=
    some ((l.map (fun m => m.plant_heat_rate.getD 0)).sum / l.length)
  specific_fuel_consumption :=
    some ((l.map (fun m => m.specific_fuel_consumption.getD 0)).sum / l.length)
  flue_gas_loss :=
    some ((l.map (fun m => m.flue_gas_loss.getD 0)).sum / l.length)
  co2_emissions :=
    some ((l.map (fun m => m.co2_emissions.getD 0)).sum / l.length)

/-- One uploaded CSV row after `pd.to_numeric(·, errors='coerce')`
(src/Batch_Analysis.py lines 150–152): a `none` cell is a missing or
non-numeric value in a required column. -/
structure Row where
  coal_flow : Option ℚ
  gcv : Option ℚ
  steam_flow : Option ℚ
  steam_enthalpy : Option ℚ
  feedwater_enthalpy : Option ℚ
  power_output : Option ℚ
  flue_temp : Option ℚ
  ambient_temp : Option ℚ
  deriving DecidableEq, Repr

/-- A row survives `df.dropna(subset=required_columns)` exactly when every
required cell is numeric. -/
def Row.isValid (r : Row) : Bool :=
  r.coal_flow.isSome && r.gcv.isSome && r.steam_flow.isSome &&
  r.steam_enthalpy.isSome && r.feedwater_enthalpy.isSome &&
  r.power_output.isSome && r.flue_temp.isSome && r.ambient_temp.isSome

/-- A fully numeric measurement record, one per retained row. -/
structure Measurement where
  coal_flow : ℚ
  gcv : ℚ
  steam_flow : ℚ
  steam_enthalpy : ℚ
  feedwater_enthalpy : ℚ
  power_output : ℚ
  flue_temp : ℚ
  ambient_temp : ℚ
  deriving DecidableEq, Repr

/-- The values of a row in which every required cell is numeric. -/
def Row.parse (r : Row) : Option Measurement :=
  match r.coal_flow, r.gcv, r.steam_flow, r.steam_enthalpy,
      r.feedwater_enthalpy, r.power_output, r.flue_temp, r.ambient_temp with
  | some a, some b, some c, some d, some e, some p, some g, some h =>
    some ⟨a, b, c, d, e, p, g, h⟩
  | _, _, _, _, _, _, _, _ => none

/-- src/Batch_Analysis.py line 156: `df.dropna(subset=required_columns)`. -/
def dropna (rows : List Row) : List Row := rows.filter Row.isValid

/-- src/Batch_Analysis.py lines 156–171: drop the incomplete rows, then apply
`calculate_metrics` to each remaining row in order. -/
def processBatch (rows : List Row) : List MetricsDict :=
  (dropna rows).map fun r =>
    calculate_metrics r.coal_flow r.gcv r.steam_flow r.steam_enthalpy
      r.feedwater_enthalpy r.power_output r.flue_temp r.ambient_temp

/-- src/Batch_Analysis.py lines 158–160: the only signal about dropped rows
is the warning shown when no valid row remains at all. -/
def empty_warning (rows : List Row) : Bool := (dropna rows).isEmpty

end Batch

/-- C2: for every measurement record with `power_output = 0`,
`utils.calculate_metrics` returns `heat_rate = 0` and
`specific_fuel_consumption = 0`, regardless of the other seven inputs. -/
theorem C2_power_output_zero (coal_flow gcv steam_flow h_steam h_feed
    flue_temp ambient_temp : ℚ) :
    (Utils.calculate_metrics coal_flow gcv steam_flow h_steam h_feed 0
        flue_temp ambient_temp).heat_rate = some 0 ∧
    (Utils.calculate_metrics coal_flow gcv steam_flow h_steam h_feed 0
        flue_temp ambient_temp).specific_fuel_consumption = some 0 := by
  constructor <;>
    simp [Utils.calculate_metrics, Utils.heat_rate_raw, Utils.sfc_raw, roundTo_zero]

/-- C3: for every measurement record with `energy_input = coal_flow * gcv = 0`,
`utils.calculate_metrics` returns `boiler_efficiency = 0` and (model b)
`flue_gas_loss = 0`, regardless of the other inputs. -/
theorem C3_energy_input_zero (coal_flow gcv steam_flow h_steam h_feed
    power_output flue_temp ambient_temp : ℚ) (h : coal_flow * gcv = 0) :
    (Utils.calculate_metrics coal_flow gcv steam_flow h_steam h_feed power_output
        flue_temp ambient_temp).boiler_efficiency = some 0 ∧
    (Utils.calculate_metrics coal_flow gcv steam_flow h_steam h_feed power_output
        flue_temp ambient_temp).flue_gas_loss = some 0 := by
  constructor <;>
    simp [Utils.calculate_metrics, Utils.boiler_efficiency_raw,
      Utils.flue_gas_loss_raw, Utils.heat_input, h, roundTo_zero]

theorem C3_witness :
    (0 : ℚ) * 5000 = 0 ∧
    ((Utils.calculate_metrics 0 5000 400 750 100 200 150 25).boiler_efficiency = some 0 ∧
     (Utils.calculate_metrics 0 5000 400 750 100 200 150 25).flue_gas_loss = some 0) :=
  ⟨by norm_num, C3_energy_input_zero 0 5000 400 750 100 200 150 25 (by norm_num)⟩

/-- C5 (counterexample): on the end-to-end example input, the heat rate is
exactly 2500 but `utils.generate_recommendations` gives it the good-band
message, not the claimed warning message: the warning band is open at 2500
(`hr > 2500`). -/
theorem C5_counterexample :
    (Utils.calculate_metrics 100 5000 400 750 100 200 150 25).heat_rate = some 2500 ∧
    "⚠️ Slightly high heat rate. Review operations." ∉
      Utils.recommendation_list (Utils.calculate_metrics 100 5000 400 750 100 200 150 25) := by
  have hm : Utils.calculate_metrics 100 5000 400 750 100 200 150 25 =
      ⟨some 52, some 2500, some 0.5, some 0.9, some 232⟩ := by
    norm_num [Utils.calculate_metrics, Utils.boiler_efficiency_raw, Utils.heat_rate_raw,
      Utils.sfc_raw, Utils.flue_gas_loss_raw, Utils.co2_emissions_raw, Utils.heat_input,
      Utils.steam_energy, roundTo, roundHalfEven]
  rw [hm, Utils.recommendation_list_eq]
  norm_num
  exact ⟨by decide, by decide, by decide, by decide⟩

/-- C5 (amended): the example input yields `energy_input = 500000`,
`steam_energy = 260000`, `boiler_efficiency = 52.00`, `heat_rate = 2500.00`,
`specific_fuel_consumption = 0.5000`; boiler efficiency is classified
critical (<70), while the boundary heat rate 2500 falls in the good band of
`utils.generate_recommendations` (its warning band is the open-below
interval (2500, 3000]). -/
theorem C5_amended :
    Utils.heat_input 100 5000 = 500000 ∧
    Utils.steam_energy 400 750 100 = 260000 ∧
    Utils.calculate_metrics 100 5000 400 750 100 200 150 25 =
      ⟨some 52, some 2500, some 0.5, some 0.9, some 232⟩ ∧
    Utils.recommendation_list (Utils.calculate_metrics 100 5000 400 750 100 200 150 25) =
      ["❌ Low efficiency. Improve combustion or insulation.",
       "✅ Efficient heat rate.",
       "✅ Efficient fuel use.",
       "✅ Heat recovery is good."] := by
  have hm : Utils.calculate_metrics 100 5000 400 750 100 200 150 25 =
      ⟨some 52, some 2500, some 0.5, some 0.9, some 232⟩ := by
    norm_num [Utils.calculate_metrics, Utils.boiler_efficiency_raw, Utils.heat_rate_raw,
      Utils.sfc_raw, Utils.flue_gas_loss_raw, Utils.co2_emissions_raw, Utils.heat_input,
      Utils.steam_energy, roundTo, roundHalfEven]
  refine ⟨by norm_num [Utils.heat_input], by norm_num [Utils.steam_energy], hm, ?_⟩
  rw [hm, Utils.recommendation_list_eq]
  norm_num

/-- C6 (counterexample): the returned `co2_emissions` field is rounded to two
decimals, so it is not exactly `coal_flow * EMISSION_FACTOR` for every
`coal_flow ≥ 0`: at `coal_flow = 1/100` the field is `0.02` while
`(1/100) * 2.32 = 0.0232`; moreover no single constant can explain both this
field and the one at `coal_flow = 1`. -/
theorem C6_counterexample :
    (Utils.calculate_metrics (1/100) 0 0 0 0 0 0 0).co2_emissions = some (2/100) ∧
    (Utils.calculate_metrics 1 0 0 0 0 0 0 0).co2_emissions = some (2.32 : ℚ) ∧
    (2/100 : ℚ) ≠ (1/100) * (2.32 : ℚ) := by
  refine ⟨?_, ?_, by norm_num⟩ <;>
    norm_num [Utils.calculate_metrics, Utils.co2_emissions_raw, roundTo, roundHalfEven]

/-- C6 (amended): the `co2_emissions` field is the two-decimal rounding of
`coal_flow * 2.32` (`EMISSION_FACTOR = 2.32` in utils.py; the
Batch/Manual variants use 2.29), independent of all other inputs, and it
equals `coal_flow * 2.32` exactly whenever `232 * coal_flow` is an integer —
in particular for every integer `coal_flow ≥ 0`. -/
theorem C6_amended (coal_flow gcv steam_flow h_steam h_feed
    power_output flue_temp ambient_temp : ℚ)
    (h : ((232 : ℚ) * coal_flow).den = 1) :
    (Utils.calculate_metrics coal_flow gcv steam_flow h_steam h_feed power_output
        flue_temp ambient_temp).co2_emissions = some (coal_flow * (2.32 : ℚ)) := by
  have h2 : ((10 : ℚ) ^ 2 * (coal_flow * (2.32 : ℚ))).den = 1 := by
    have : (10 : ℚ) ^ 2 * (coal_flow * (2.32 : ℚ)) = (232 : ℚ) * coal_flow := by
      ring_nf
    rw [this]; exact h
  simp [Utils.calculate_metrics, Utils.co2_emissions_raw,
    roundTo_of_den_eq_one 2 _ h2]

theorem C6_witness :
    ((232 : ℚ) * 3).den = 1 ∧
    (Utils.calculate_metrics 3 0 0 0 0 0 0 0).co2_emissions = some (3 * (2.32 : ℚ)) :=
  ⟨by norm_num, C6_amended 3 0 0 0 0 0 0 0 (by norm_num)⟩

/-- C7 (counterexample): with `steam_flow = 0` and `energy_input = 1 > 0`,
raising the steam enthalpy from 1 to 2 leaves the returned boiler efficiency
unchanged, so the claimed strict increase fails. -/
theorem C7_counterexample :
    (1 : ℚ) < 2 ∧ (0 : ℚ) < 1 * 1 ∧
    (Utils.calculate_metrics 1 1 0 2 0 0 0 0).boiler_efficiency =
      (Utils.calculate_metrics 1 1 0 1 0 0 0 0).boiler_efficiency := by
  refine ⟨by norm_num, by norm_num, ?_⟩
  norm_num [Utils.calculate_metrics, Utils.boiler_efficiency_raw,
    Utils.heat_input, Utils.steam_energy]

/-- C7 (amended): holding the other inputs fixed, with `energy_input > 0`
and `steam_flow > 0`, increasing the steam enthalpy strictly increases the
boiler efficiency before its two-decimal display rounding (the rounded
returned field can coincide for nearby enthalpies). -/
theorem C7_amended (coal_flow gcv steam_flow h_feed h1 h2 : ℚ)
    (hin : 0 < coal_flow * gcv) (hsf : 0 < steam_flow) (hlt : h1 < h2) :
    Utils.boiler_efficiency_raw coal_flow gcv steam_flow h1 h_feed <
      Utils.boiler_efficiency_raw coal_flow gcv steam_flow h2 h_feed := by
  have hne : Utils.heat_input coal_flow gcv ≠ 0 := by
    simpa [Utils.heat_input] using hin.ne'
  simp only [Utils.boiler_efficiency_raw, Utils.steam_energy, if_pos hne]
  have hpos : (0 : ℚ) < Utils.heat_input coal_flow gcv := by
    simpa [Utils.heat_input] using hin
  have hnum : steam_flow * (h1 - h_feed) < steam_flow * (h2 - h_feed) := by
    exact mul_lt_mul_of_pos_left (by linarith) hsf
  have := div_lt_div_of_pos_right hnum hpos
  exact mul_lt_mul_of_pos_right this (by norm_num)

/-- C1: at a metrics record whose heat rate, specific fuel consumption and
flue-gas loss are all exactly 0, `utils.generate_recommendations` emits the
good-band messages for all three (and does not fold the zero heat rate to
critical), while the Batch_Analysis/Manual_Audit variant of the engine —
whose `> 0` guard carries the comment "avoid recommending Efficient for 0
values" — rates all of them critical, as the claim demands. -/
theorem C1_utils_rates_zero_as_good :
    Utils.recommendation_list ⟨some 0, some 0, some 0, some 0, some 0⟩ =
      ["❌ Low efficiency. Improve combustion or insulation.",
       "✅ Efficient heat rate.",
       "✅ Efficient fuel use.",
       "✅ Heat recovery is good."] ∧
    Batch.generate_recommendations ⟨some 0, some 0, some 0, some 0, some 0⟩ =
      ["❌ **Boiler Efficiency (Avg: 0.00%)**: Inefficient. Check for incomplete combustion, poor coal quality, leaks, and fouling in boiler tubes. Consider retrofitting economizers or better insulation.",
       "❌ **Plant Heat Rate (Avg: 0.00 kcal/kWh)**: Inefficient. Audit heat exchangers, check turbine performance, condenser vacuum issues, and unaccounted auxiliary consumption.",
       "❌ **Specific Fuel Consumption (Avg: 0.00 kg/kWh)**: High. Recommend coal quality improvement, combustion tuning, and reducing clinker formation.",
       "❌ **Flue Gas Loss (Avg: 0.00%)**: High heat loss. Suggest urgent flue gas heat recovery installation, reduce excess air, and check for insulation leaks."] := by
  constructor
  · rw [Utils.recommendation_list_eq]
    norm_num
  · norm_num [Batch.generate_recommendations, fmt2, roundHalfEven]
    exact ⟨rfl, rfl, rfl, rfl⟩

/-- C4 (counterexample): at a metrics record with `co2_emissions = 100`
(which is `> 0` and `≤ 8000`), `utils.generate_recommendations` emits only
four messages and no CO₂ message at all, contradicting the claimed
informational-good CO₂ message for that band. -/
theorem C4_counterexample :
    (0 : ℚ) < 100 ∧ (100 : ℚ) ≤ 8000 ∧
    (Utils.recommendation_list ⟨some 90, some 2000, some 0.5, some 3, some 100⟩).length = 4 := by
  refine ⟨by norm_num, by norm_num, ?_⟩
  rw [Utils.recommendation_list_length]
  norm_num

/-- C4 (amended): `utils.generate_recommendations` is total, deterministic
and order-preserving, emitting exactly one message for each of boiler
efficiency, heat rate, specific fuel consumption and flue-gas loss in that
fixed order; the CO₂ message comes last and only as a warning when
`co2_emissions > 8000` — a value in `(0, 8000]` produces no CO₂ message
(the informational-good CO₂ message exists only in the
Batch_Analysis/Manual_Audit variant of the engine). -/
theorem C4_amended (m : Utils.MetricsDict) :
    Utils.recommendation_list m =
      [if m.boiler_efficiency.getD 0 > 85 then "✅ Excellent boiler efficiency."
       else if m.boiler_efficiency.getD 0 ≥ 70 then
         "⚠️ Moderate efficiency. Optimize air/fuel ratio."
       else "❌ Low efficiency. Improve combustion or insulation.",
       if m.heat_rate.getD 0 > 3000 then
         "❌ High heat rate. Check turbines & steam conditions."
       else if m.heat_rate.getD 0 > 2500 then
         "⚠️ Slightly high heat rate. Review operations."
       else "✅ Efficient heat rate.",
       if m.specific_fuel_consumption.getD 0 > 0.75 then
         "❌ High fuel usage. Check fuel quality."
       else if m.specific_fuel_consumption.getD 0 > 0.6 then "⚠️ Improve combustion."
       else "✅ Efficient fuel use.",
       if m.flue_gas_loss.getD 0 > 10 then "❌ High flue gas loss. Add economizers."
       else if m.flue_gas_loss.getD 0 > 5 then "⚠️ Consider better insulation."
       else "✅ Heat recovery is good."] ++
      (if m.co2_emissions.getD 0 > 8000 then
         ["⚠️ High CO₂ emissions. Explore cleaner fuels or carbon capture."]
       else []) :=
  Utils.recommendation_list_eq m

/-- C10: `utils.generate_recommendations` is total over any metrics
dictionary: every absent indicator is read as 0 through the defaulted
lookup, so the empty dictionary yields exactly the four messages (boiler
efficiency critical, heat rate / specific fuel consumption / flue-gas loss
good) and no CO₂ message, and the output has five messages exactly when
`co2_emissions > 8000` (else four). -/
theorem C10_defaulted_lookup_totality :
    Utils.recommendation_list ⟨none, none, none, none, none⟩ =
      ["❌ Low efficiency. Improve combustion or insulation.",
       "✅ Efficient heat rate.",
       "✅ Efficient fuel use.",
       "✅ Heat recovery is good."] ∧
    ∀ m : Utils.MetricsDict,
      (Utils.recommendation_list m).length =
        if m.co2_emissions.getD 0 > 8000 then 5 else 4 := by
  constructor
  · rw [Utils.recommendation_list_eq]
    norm_num
  · exact Utils.recommendation_list_length

/-- The column-wise mean of `n ≥ 1` copies of one metrics record recovers
each present indicator value. -/
theorem avg_metrics_replicate (n : ℕ) (hn : n ≠ 0) (m : Batch.MetricsDict) :
    Batch.avg_metrics (List.replicate n m) =
      ⟨some (m.boiler_efficiency.getD 0), some (m.plant_heat_rate.getD 0),
       some (m.specific_fuel_consumption.getD 0), some (m.flue_gas_loss.getD 0),
       some (m.co2_emissions.getD 0)⟩ := by
  have hn' : (n : ℚ) ≠ 0 := Nat.cast_ne_zero.mpr hn
  simp [Batch.avg_metrics, List.sum_replicate, nsmul_eq_mul,
    mul_div_assoc, mul_div_cancel_left₀ _ hn']

/-- C8: running Batch_Analysis on a batch of `n ≥ 1` identical measurement
records gives an aggregate metrics record (column-wise mean) equal to the
single-record metrics, and the recommendations computed from the aggregate
coincide with the single-record recommendations. -/
theorem C8_aggregate_of_identical (n : ℕ) (hn : 1 ≤ n)
    (coal_flow gcv steam_flow steam_h feed_h power_output flue_temp amb_temp : ℚ) :
    Batch.avg_metrics (List.replicate n
        (Batch.calculate_metrics (some coal_flow) (some gcv) (some steam_flow)
          (some steam_h) (some feed_h) (some power_output) (some flue_temp)
          (some amb_temp))) =
      Batch.calculate_metrics (some coal_flow) (some gcv) (some steam_flow)
        (some steam_h) (some feed_h) (some power_output) (some flue_temp)
        (some amb_temp) ∧
    Batch.generate_recommendations (Batch.avg_metrics (List.replicate n
        (Batch.calculate_metrics (some coal_flow) (some gcv) (some steam_flow)
          (some steam_h) (some feed_h) (some power_output) (some flue_temp)
          (some amb_temp)))) =
      Batch.generate_recommendations
        (Batch.calculate_metrics (some coal_flow) (some gcv) (some steam_flow)
          (some steam_h) (some feed_h) (some power_output) (some flue_temp)
          (some amb_temp)) := by
  have h1 : Batch.avg_metrics (List.replicate n
      (Batch.calculate_metrics (some coal_flow) (some gcv) (some steam_flow)
        (some steam_h) (some feed_h) (some power_output) (some flue_temp)
        (some amb_temp))) =
      Batch.calculate_metrics (some coal_flow) (some gcv) (some steam_flow)
        (some steam_h) (some feed_h) (some power_output) (some flue_temp)
        (some amb_temp) := by
    rw [avg_metrics_replicate n (by omega)]
    simp [Batch.calculate_metrics]
  exact ⟨h1, by rw [h1]⟩

theorem C8_witness :
    1 ≤ 3 ∧
    (Batch.avg_metrics (List.replicate 3
        (Batch.calculate_metrics (some 100) (some 5000) (some 400) (some 750)
          (some 100) (some 200) (some 150) (some 25))) =
      Batch.calculate_metrics (some 100) (some 5000) (some 400) (some 750)
        (some 100) (some 200) (some 150) (some 25) ∧
    Batch.generate_recommendations (Batch.avg_metrics (List.replicate 3
        (Batch.calculate_metrics (some 100) (some 5000) (some 400) (some 750)
          (some 100) (some 200) (some 150) (some 25)))) =
      Batch.generate_recommendations
        (Batch.calculate_metrics (some 100) (some 5000) (some 400) (some 750)
          (some 100) (some 200) (some 150) (some 25))) :=
  ⟨by norm_num, C8_aggregate_of_identical 3 (by norm_num) 100 5000 400 750 100 200 150 25⟩

/-- C9 (counterexample): Batch_Analysis's own `calculate_metrics` silently
coerces a missing input to 0 — a missing coal flow is indistinguishable from
a genuine zero reading — and the batch pipeline surfaces no exclusion count:
its output on a batch with one invalid row is identical to its output on the
batch without that row. -/
theorem C9_counterexample :
    Batch.calculate_metrics none (some 5000) (some 400) (some 750) (some 100)
        (some 200) (some 150) (some 25) =
      Batch.calculate_metrics (some 0) (some 5000) (some 400) (some 750) (some 100)
        (some 200) (some 150) (some 25) ∧
    Batch.processBatch
        [⟨none, some 5000, some 400, some 750, some 100, some 200, some 150, some 25⟩,
         ⟨some 100, some 5000, some 400, some 750, some 100, some 200, some 150, some 25⟩] =
      Batch.processBatch
        [⟨some 100, some 5000, some 400, some 750, some 100, some 200, some 150, some 25⟩] := by
  constructor
  · norm_num [Batch.calculate_metrics]
  · norm_num [Batch.processBatch, Batch.dropna, Batch.Row.isValid]

/-- Unfolding one step of the batch pipeline. -/
theorem processBatch_cons (r : Batch.Row) (rs : List Batch.Row) :
    Batch.processBatch (r :: rs) =
      (if r.isValid then
        [Batch.calculate_metrics r.coal_flow r.gcv r.steam_flow r.steam_enthalpy
          r.feedwater_enthalpy r.power_output r.flue_temp r.ambient_temp]
       else []) ++ Batch.processBatch rs := by
  by_cases hv : r.isValid <;>
    simp [Batch.processBatch, Batch.dropna, List.filter_cons, hv]

/-- Parsing a row succeeds exactly on the rows `dropna` keeps, and then
the calculator applied to the parsed values is the calculator applied to
the raw cells. -/
theorem row_parse_calc (r : Batch.Row) :
    (Batch.Row.parse r).map (fun v =>
      Batch.calculate_metrics (some v.coal_flow) (some v.gcv) (some v.steam_flow)
        (some v.steam_enthalpy) (some v.feedwater_enthalpy) (some v.power_output)
        (some v.flue_temp) (some v.ambient_temp)) =
      (if r.isValid then
        some (Batch.calculate_metrics r.coal_flow r.gcv r.steam_flow r.steam_enthalpy
          r.feedwater_enthalpy r.power_output r.flue_temp r.ambient_temp)
       else none) := by
  obtain ⟨cf, g, sf, se, fe, po, ft, amb⟩ := r
  cases cf <;> cases g <;> cases sf <;> cases se <;> cases fe <;> cases po <;>
    cases ft <;> cases amb <;> rfl

/-- C9 (amended): in the Batch_Analysis pipeline a row with a missing or
non-numeric required value is excluded by `dropna` before the Metrics
Calculator, and every retained row is computed from its actual parsed
values (the calculator's zero-coercion never fires inside the pipeline);
however, the exclusion is not surfaced as a count — the only signal about
dropped rows is the warning raised exactly when no valid row remains. -/
theorem C9_amended (rows : List Batch.Row) :
    Batch.processBatch rows =
      rows.filterMap (fun r => (Batch.Row.parse r).map (fun v =>
        Batch.calculate_metrics (some v.coal_flow) (some v.gcv) (some v.steam_flow)
          (some v.steam_enthalpy) (some v.feedwater_enthalpy) (some v.power_output)
          (some v.flue_temp) (some v.ambient_temp))) ∧
    Batch.empty_warning rows = (Batch.processBatch rows).isEmpty := by
  constructor
  · induction rows with
    | nil => rfl
    | cons r rs ih =>
      simp only [List.filterMap_cons]
      rw [row_parse_calc, processBatch_cons, ih]
      by_cases hv : r.isValid <;> simp [hv]
  · cases h : Batch.dropna rows <;>
      simp [Batch.empty_warning, Batch.processBatch, h]

theorem C7_witness :
    (0 : ℚ) < 1 * 1 ∧ (0 : ℚ) < 1 ∧ (0 : ℚ) < 1 ∧
    Utils.boiler_efficiency_raw 1 1 1 0 0 < Utils.boiler_efficiency_raw 1 1 1 1 0 :=
  ⟨by norm_num, by norm_num, by norm_num,
    C7_amended 1 1 1 0 0 1 (by norm_num) (by norm_num) (by norm_num)⟩

end EnergyAudit
